import Mathlib

/-!
Shallow embedding of `src/practice.py`, a Sokoban-style grid puzzle
(tile grid, position-keyed entity map, player with strength and a move
budget, `convert_maze`, `SokobanModel.attempt_move`, `SokobanModel.has_won`),
together with theorems settling the specification claims about it.

Python mutable state is translated to explicit state passing on a
`SokobanState` record; the Python `dict` of entities is translated to an
association list with dict-extensional `get`/`set`/`pop`; code paths that
would raise (out-of-range list indexing) are translated to `Option`, with
`none` standing for an exception.
-/

namespace Practice

/-- Modelled from the spec: the single-character codes of the maze format
(`practice_support.py` is not in the repository; the characters are those
named in the spec's external-interface section and in the docstrings of
`practice.py`: Wall `W`, unfilled Goal `G`, filled Goal `X`, Floor a space,
Player `P`, StrengthPotion `S`, MovePotion `M`, FancyPotion `F`). -/
def WALL : Char := 'W'

def GOAL : Char := 'G'

def FILLED_GOAL : Char := 'X'

def FLOOR : Char := ' '

def PLAYER : Char := 'P'

def STRENGTH_POTION : Char := 'S'

def MOVE_POTION : Char := 'M'

def FANCY_POTION : Char := 'F'

/-- Tiles: `Floor`, `Wall`, and `Goal` carrying its mutable `filled` flag
(`Goal.__init__` sets it to `False`; `Goal.fill` sets it to `True`). -/
inductive Tile where
  | floor : Tile
  | wall : Tile
  | goal (filled : Bool) : Tile
  deriving DecidableEq, Repr

/-- `Tile.is_blocking`: `False` by default, overridden to `True` by `Wall`. -/
def Tile.is_blocking : Tile → Bool
  | .wall => true
  | _ => false

/-- `Tile.get_type`: the display tag.  `Goal._type` starts as `GOAL` and is
reassigned to `FILLED_GOAL` by `Goal.fill`, so the tag of a goal is a
function of its `filled` flag. -/
def Tile.get_type : Tile → Char
  | .floor => FLOOR
  | .wall => WALL
  | .goal false => GOAL
  | .goal true => FILLED_GOAL

/-- `Goal.__init__`: a goal starts unfilled. -/
def goalInit : Tile := Tile.goal false

/-- `Goal.fill`: sets the goal's `filled` flag and its display tag (on a
non-goal tile there is no such method; the embedding leaves other tiles
unchanged, and is only applied to goals). -/
def Tile.fill : Tile → Tile
  | .goal _ => .goal true
  | t => t

/-- Non-player entities: `Crate` with its strength, and the three potions.
(`Player` is never stored in the entity map; the abstract `Potion` is never
instantiated by `convert_maze`.) -/
inductive Entity where
  | crate (strength : Int) : Entity
  | strengthPotion : Entity
  | movePotion : Entity
  | fancyPotion : Entity
  deriving DecidableEq, Repr

/-- A potion's `effect` dictionary: optional `strength` and `moves` keys. -/
structure Effect where
  strength : Option Int
  moves : Option Int
  deriving DecidableEq, Repr

/-- `Potion.effect` of each potion class: `StrengthPotion → {strength: 2}`,
`MovePotion → {moves: 5}`, `FancyPotion → {strength: 2, moves: 2}`.
(A crate has no `effect` method; the value on `crate` is unreachable.) -/
def Entity.effect : Entity → Effect
  | .strengthPotion => ⟨some 2, none⟩
  | .movePotion => ⟨none, some 5⟩
  | .fancyPotion => ⟨some 2, some 2⟩
  | .crate _ => ⟨none, none⟩

/-- `isinstance(entity, Potion)`. -/
def Entity.isPotion : Entity → Bool
  | .crate _ => false
  | _ => true

/-- Positions, `(row, col)` integer pairs. -/
abbrev Pos := Int × Int

/-- The entity dictionary, as an association list with distinct keys in
practice; all operations below are extensionally the Python `dict` ones. -/
abbrev EMap := List (Pos × Entity)

/-- `dict.get`: first (in practice only) entry with the key. -/
def emGet : EMap → Pos → Option Entity
  | [], _ => none
  | (k, v) :: rest, q => if k = q then some v else emGet rest q

/-- `dict.pop`: remove the key. -/
def emPop : EMap → Pos → EMap
  | [], _ => []
  | (k, v) :: rest, q => if k = q then emPop rest q else (k, v) :: emPop rest q

/-- `dict.__setitem__`: bind the key to the value (extensionally). -/
def emSet (m : EMap) (k : Pos) (v : Entity) : EMap :=
  (k, v) :: emPop m k

/-- One cell of `convert_maze`'s per-character dispatch: the tile appended
to the current row (if any), the entity recorded at the cell (if any), and
whether the cell is the player character.  The branch order and the absence
of a tile in the digit/potion/player/unrecognized branches are exactly
those of the source. -/
def convertChar (c : Char) : Option Tile × Option Entity × Bool :=
  if c = WALL then (some Tile.wall, none, false)
  else if c = GOAL then (some goalInit, none, false)
  else if c = FILLED_GOAL then (some goalInit.fill, none, false)
  else if c = FLOOR then (some Tile.floor, none, false)
  else if c.isDigit then (none, some (Entity.crate (c.toNat - 48 : Int)), false)
  else if c = STRENGTH_POTION then (none, some Entity.strengthPotion, false)
  else if c = MOVE_POTION then (none, some Entity.movePotion, false)
  else if c = FANCY_POTION then (none, some Entity.fancyPotion, false)
  else if c = PLAYER then (none, none, true)
  else (none, none, false)

/-- The inner loop of `convert_maze` over one row, from column `j`, with the
row accumulator and the running entity map and player position. -/
def convertRow (i : Nat) : Nat → List Char → List Tile → EMap → Option Pos →
    List Tile × EMap × Option Pos
  | _, [], temp, entities, pp => (temp, entities, pp)
  | j, c :: cs, temp, entities, pp =>
    convertRow i (j + 1) cs
      (match (convertChar c).1 with | some t => temp ++ [t] | none => temp)
      (match (convertChar c).2.1 with
       | some e => emSet entities ((i : Int), (j : Int)) e
       | none => entities)
      (if (convertChar c).2.2 then some ((i : Int), (j : Int)) else pp)

/-- The outer loop of `convert_maze` over the rows, from row `i`. -/
def convertRows : Nat → List (List Char) → List (List Tile) → EMap →
    Option Pos → List (List Tile) × EMap × Option Pos
  | _, [], grid, entities, pp => (grid, entities, pp)
  | i, row :: rows, grid, entities, pp =>
    convertRows (i + 1) rows
      (grid ++ [(convertRow i 0 row [] entities pp).1])
      (convertRow i 0 row [] entities pp).2.1
      (convertRow i 0 row [] entities pp).2.2

/-- `convert_maze`: character grid → (tile grid, entity map, player position).
`player_position` starts as `None` and is assigned at every player
character met by the row-major scan. -/
def convert_maze (game : List (List Char)) :
    List (List Tile) × EMap × Option Pos :=
  convertRows 0 game [] [] none

/-- From the claim's words: the columns, from column `j` on, of the player
characters in one row, in scan order. -/
def rowPlayerPositions (i : Nat) : Nat → List Char → List Pos
  | _, [] => []
  | j, c :: cs =>
    (if c = PLAYER then [(((i : Int), (j : Int)) : Pos)] else []) ++
      rowPlayerPositions i (j + 1) cs

/-- From the claim's words: the positions of the player characters in the
rows, from row `i` on, in row-major scan order. -/
def playerPositionsFrom : Nat → List (List Char) → List Pos
  | _, [] => []
  | i, row :: rows =>
    rowPlayerPositions i 0 row ++ playerPositionsFrom (i + 1) rows

/-- From the claim's words: the positions of all player characters in the
grid, in row-major scan order. -/
def playerPositions (game : List (List Char)) : List Pos :=
  playerPositionsFrom 0 game

/-- The character of the input grid at `(i, j)`, when both indices are in
range. -/
def cellAt (game : List (List Char)) (i j : Nat) : Option Char :=
  game[i]?.bind fun row => row[j]?

/-- Modelled from the spec: `DIRECTION_DELTAS` lives in the absent
`practice_support.py`; per the spec, each of four symbolic directions maps
to a fixed `(dRow, dCol)` unit delta, any other string being unrecognized. -/
def DIRECTION_DELTAS (d : String) : Option (Int × Int) :=
  if d = "w" then some (-1, 0)
  else if d = "s" then some (1, 0)
  else if d = "a" then some (0, -1)
  else if d = "d" then some (0, 1)
  else none

/-- The mutable state of a `SokobanModel`: `_grid`, `_entities`,
`_player_position`, the `Player`'s `_start_strength` and `_moves_remaining`,
and the `_rows`/`_cols` captured by `__init__`. -/
structure SokobanState where
  grid : List (List Tile)
  entities : EMap
  player_position : Pos
  player_strength : Int
  moves_remaining : Int
  rows : Int
  cols : Int
  deriving DecidableEq, Repr

/-- `self._grid[i][j]`: `none` models the `IndexError` Python would raise
(negative indices also give `none`; the code only indexes after its own
bounds checks, where they cannot occur). -/
def gridGet (grid : List (List Tile)) (i j : Int) : Option Tile :=
  if i < 0 ∨ j < 0 then none
  else grid[i.toNat]?.bind fun row => row[j.toNat]?

/-- `self._grid[x3][y3].fill()`: replace the tile at `(i, j)` by its filled
version, in place. -/
def gridFill (grid : List (List Tile)) (i j : Int) : List (List Tile) :=
  match grid[i.toNat]? with
  | none => grid
  | some row => grid.set i.toNat (row.set j.toNat (match row[j.toNat]? with
      | some t => t.fill
      | none => Tile.floor))

/-- `Player.apply_effect` combined with the same turn's
`add_moves_remaining(-1)` happening after it: the `strength` and `moves`
deltas of the effect dictionary, absent keys counting 0. -/
def applyEffect (s : SokobanState) (e : Effect) : SokobanState :=
  { s with
    player_strength := s.player_strength + e.strength.getD 0,
    moves_remaining := s.moves_remaining + e.moves.getD 0 }

/-- `SokobanModel.attempt_move`, as a function from the state and direction
to `Option (Bool × SokobanState)`: `some (returnValue, newState)` for a
normal return, `none` for an uncaught `IndexError` (ragged grid).  The
guard order, the truthiness test on `entities.get((x3, y3))`, and the
fall-through from a filled goal to the plain relocation are the source's. -/
def attempt_move (s : SokobanState) (direction : String) :
    Option (Bool × SokobanState) :=
  match DIRECTION_DELTAS direction with
  | none => some (false, s)
  | some (dx, dy) =>
    let x1 := s.player_position.1
    let y1 := s.player_position.2
    let x2 := x1 + dx
    let y2 := y1 + dy
    if x2 < 0 ∨ s.rows ≤ x2 then some (false, s)
    else if y2 < 0 ∨ s.cols ≤ y2 then some (false, s)
    else match gridGet s.grid x2 y2 with
    | none => none
    | some tile =>
      if tile.is_blocking then some (false, s)
      else match emGet s.entities (x2, y2) with
      | some (Entity.crate strength) =>
        if s.player_strength < strength then some (false, s)
        else
          let x3 := x2 + dx
          let y3 := y2 + dy
          if x3 < 0 ∨ s.rows ≤ x3 then some (false, s)
          else if y3 < 0 ∨ s.cols ≤ y3 then some (false, s)
          else match gridGet s.grid x3 y3 with
          | none => none
          | some tile3 =>
            if tile3.is_blocking then some (false, s)
            else if (emGet s.entities (x3, y3)).isSome then some (false, s)
            else if tile3 = Tile.goal false then
              some (true, { s with
                entities := emPop s.entities (x2, y2),
                grid := gridFill s.grid x3 y3,
                player_position := (x2, y2),
                moves_remaining := s.moves_remaining - 1 })
            else
              some (true, { s with
                entities := emPop (emSet s.entities (x3, y3)
                  (Entity.crate strength)) (x2, y2),
                player_position := (x2, y2),
                moves_remaining := s.moves_remaining - 1 })
      | some entity =>
        some (true, { applyEffect s entity.effect with
          entities := emPop s.entities (x2, y2),
          player_position := (x2, y2),
          moves_remaining := s.moves_remaining + entity.effect.moves.getD 0 - 1 })
      | none =>
        some (true, { s with
          player_position := (x2, y2),
          moves_remaining := s.moves_remaining - 1 })

/-- `SokobanModel.has_won`: scan the grid, `False` at the first unfilled
goal, else `True`. -/
def has_won (s : SokobanState) : Bool :=
  s.grid.all fun row => row.all fun tile =>
    match tile with
    | Tile.goal filled => filled
    | _ => true

/-- The well-formedness the model's `__init__` would establish on a
rectangular converted grid: `_rows` and `_cols` agree with the grid's
actual dimensions. -/
def wellFormed (s : SokobanState) : Bool :=
  (s.rows == (s.grid.length : Int)) &&
    s.grid.all fun row => (row.length : Int) == s.cols

/-- `Sokoban.play_game`'s loss check after a successful move: the session is
declared lost exactly when `get_player_moves_remaining() == 0` (an exact
equality test, not `<= 0`). -/
def lostAfterMove (s : SokobanState) : Bool := s.moves_remaining == 0

/-- A 1×1 well-formed state used to instantiate universally quantified
theorems. -/
def demoA : SokobanState :=
  { grid := [[Tile.floor]], entities := [], player_position := (0, 0),
    player_strength := 0, moves_remaining := 0, rows := 1, cols := 1 }

/-- A state whose player (strength 0) faces a crate of strength 1. -/
def demoWeak : SokobanState :=
  { grid := [[Tile.floor, Tile.floor, Tile.floor]],
    entities := [((0, 1), Entity.crate 1)], player_position := (0, 0),
    player_strength := 0, moves_remaining := 5, rows := 1, cols := 3 }

/-- A state whose player (strength 1) can push a crate of strength 1 onto a
plain floor cell. -/
def demoPush : SokobanState :=
  { grid := [[Tile.floor, Tile.floor, Tile.floor]],
    entities := [((0, 1), Entity.crate 1)], player_position := (0, 0),
    player_strength := 1, moves_remaining := 5, rows := 1, cols := 3 }

/-- A state whose player can push a crate onto an unfilled goal. -/
def demoGoalPush : SokobanState :=
  { grid := [[Tile.floor, Tile.floor, Tile.goal false]],
    entities := [((0, 1), Entity.crate 1)], player_position := (0, 0),
    player_strength := 1, moves_remaining := 5, rows := 1, cols := 3 }

/-- A state whose player can push a crate toward an already-filled goal. -/
def demoFilledPush : SokobanState :=
  { grid := [[Tile.floor, Tile.floor, Tile.goal true]],
    entities := [((0, 1), Entity.crate 1)], player_position := (0, 0),
    player_strength := 1, moves_remaining := 5, rows := 1, cols := 3 }

/-- A state whose player stands next to a move potion. -/
def demoPotion : SokobanState :=
  { grid := [[Tile.floor, Tile.floor]],
    entities := [((0, 1), Entity.movePotion)], player_position := (0, 0),
    player_strength := 0, moves_remaining := 5, rows := 1, cols := 2 }

/-- A 1×1 state whose single tile is a filled goal. -/
def demoG : SokobanState :=
  { grid := [[Tile.goal true]], entities := [], player_position := (0, 0),
    player_strength := 0, moves_remaining := 0, rows := 1, cols := 1 }

/-- A state with zero moves remaining and a free cell to the right. -/
def demoNeg : SokobanState :=
  { grid := [[Tile.floor, Tile.floor]], entities := [],
    player_position := (0, 0), player_strength := 0, moves_remaining := 0,
    rows := 1, cols := 2 }

/-- The state `demoNeg` reaches after a successful move right: the moves
counter has gone negative. -/
def demoNegAfter : SokobanState :=
  { grid := [[Tile.floor, Tile.floor]], entities := [],
    player_position := (0, 1), player_strength := 0, moves_remaining := -1,
    rows := 1, cols := 2 }

/-- The state `demoPush` reaches after pushing the crate right. -/
def demoPushAfter : SokobanState :=
  { grid := [[Tile.floor, Tile.floor, Tile.floor]],
    entities := [((0, 2), Entity.crate 1)], player_position := (0, 1),
    player_strength := 1, moves_remaining := 4, rows := 1, cols := 3 }

/-- The state `demoGoalPush` reaches after pushing the crate onto the goal. -/
def demoGoalAfter : SokobanState :=
  { grid := [[Tile.floor, Tile.floor, Tile.goal true]], entities := [],
    player_position := (0, 1), player_strength := 1, moves_remaining := 4,
    rows := 1, cols := 3 }

/-- The state `demoFilledPush` reaches after pushing the crate onto the
already-filled goal. -/
def demoFilledAfter : SokobanState :=
  { grid := [[Tile.floor, Tile.floor, Tile.goal true]],
    entities := [((0, 2), Entity.crate 1)], player_position := (0, 1),
    player_strength := 1, moves_remaining := 4, rows := 1, cols := 3 }

/-- The state `demoPotion` reaches after collecting the move potion. -/
def demoPotionAfter : SokobanState :=
  { grid := [[Tile.floor, Tile.floor]], entities := [],
    player_position := (0, 1), player_strength := 0, moves_remaining := 9,
    rows := 1, cols := 2 }

/-- The state `SokobanModel.__init__` would build (with stats strength 0,
moves 5) from the maze `[[' ', ' '], ['P', ' ']]`: because `convert_maze`
appends no tile for the player character, row 1 of the tile grid is shorter
than `_cols`, and a move right runs `self._grid[1][1]` out of range. -/
def mazeRaggedState : SokobanState :=
  { grid := (convert_maze [[' ', ' '], ['P', ' ']]).1,
    entities := (convert_maze [[' ', ' '], ['P', ' ']]).2.1,
    player_position := ((convert_maze [[' ', ' '], ['P', ' ']]).2.2).getD (0, 0),
    player_strength := 0, moves_remaining := 5,
    rows := ((convert_maze [[' ', ' '], ['P', ' ']]).1.length : Int),
    cols := (((convert_maze [[' ', ' '], ['P', ' ']]).1.headI).length : Int) }

@[simp] theorem emGet_nil (q : Pos) : emGet [] q = none := rfl

@[simp] theorem emGet_cons (k : Pos) (v : Entity) (rest : EMap) (q : Pos) :
    emGet ((k, v) :: rest) q = if k = q then some v else emGet rest q := rfl

theorem emGet_emPop (m : EMap) (k q : Pos) :
    emGet (emPop m k) q = if k = q then none else emGet m q := by
  induction m with
  | nil => simp [emPop]
  | cons kv rest ih =>
    obtain ⟨k', v'⟩ := kv
    by_cases h1 : k' = k <;> by_cases h2 : k' = q
    · subst h1; subst h2; simp [emPop, ih]
    · subst h1; simp [emPop, h2, ih]
    · subst h2; simp [emPop, h1, ih]
      intro h; exact absurd h.symm h1
    · simp [emPop, h1, h2, ih]

@[simp] theorem emGet_emPop_same (m : EMap) (k : Pos) :
    emGet (emPop m k) k = none := by
  simp [emGet_emPop]

theorem emGet_emPop_ne (m : EMap) (k q : Pos) (h : k ≠ q) :
    emGet (emPop m k) q = emGet m q := by
  simp [emGet_emPop, h]

@[simp] theorem emGet_emSet_same (m : EMap) (k : Pos) (v : Entity) :
    emGet (emSet m k v) k = some v := by
  simp [emSet]

theorem emGet_emSet_ne (m : EMap) (k q : Pos) (v : Entity) (h : k ≠ q) :
    emGet (emSet m k v) q = emGet m q := by
  simp [emSet, h, emGet_emPop_ne]

theorem wellFormed_rows {s : SokobanState} (hwf : wellFormed s = true) :
    s.rows = (s.grid.length : Int) := by
  simp [wellFormed] at hwf
  exact hwf.1

theorem wellFormed_cols {s : SokobanState} (hwf : wellFormed s = true) :
    ∀ row ∈ s.grid, (row.length : Int) = s.cols := by
  simp [wellFormed, List.all_eq_true] at hwf
  exact hwf.2

theorem gridGet_exists {s : SokobanState} (hwf : wellFormed s = true)
    {i j : Int} (hi0 : 0 ≤ i) (hi : i < s.rows) (hj0 : 0 ≤ j) (hj : j < s.cols) :
    ∃ t, gridGet s.grid i j = some t := by
  have hrows := wellFormed_rows hwf
  have hlen : i.toNat < s.grid.length := by omega
  have hmem : s.grid.get ⟨i.toNat, hlen⟩ ∈ s.grid := List.get_mem ..
  have hc := wellFormed_cols hwf _ hmem
  have hjlen : j.toNat < (s.grid.get ⟨i.toNat, hlen⟩).length := by omega
  refine ⟨(s.grid.get ⟨i.toNat, hlen⟩).get ⟨j.toNat, hjlen⟩, ?_⟩
  unfold gridGet
  have h1 : s.grid[i.toNat]? = some (s.grid.get ⟨i.toNat, hlen⟩) := by
    rw [← List.get?_eq_getElem?]
    exact List.get?_eq_get hlen
  rw [if_neg (by omega), h1, Option.some_bind, ← List.get?_eq_getElem?]
  exact List.get?_eq_get hjlen

theorem attempt_move_isSome {s : SokobanState} (hwf : wellFormed s = true)
    (d : String) : (attempt_move s d).isSome = true := by
  unfold attempt_move
  split
  · rfl
  next dx dy _ =>
    dsimp only
    split
    · rfl
    next h2 =>
      split
      · rfl
      next h3 =>
        split
        next hnone =>
          obtain ⟨t, ht⟩ := gridGet_exists hwf (i := s.player_position.1 + dx)
            (j := s.player_position.2 + dy) (by omega) (by omega) (by omega) (by omega)
          simp [ht] at hnone
        next tile ht =>
          split
          · rfl
          split
          · split
            · rfl
            · split
              · rfl
              next h6 =>
                split
                · rfl
                next h7 =>
                  split
                  next hnone3 =>
                    obtain ⟨t3, ht3⟩ := gridGet_exists hwf
                      (i := s.player_position.1 + dx + dx)
                      (j := s.player_position.2 + dy + dy)
                      (by omega) (by omega) (by omega) (by omega)
                    simp [ht3] at hnone3
                  next tile3 ht3 =>
                    repeat' split
                    all_goals rfl
          · rfl
          · rfl

theorem DIRECTION_DELTAS_ne_zero {d : String} {dx dy : Int}
    (hd : DIRECTION_DELTAS d = some (dx, dy)) : ¬(dx = 0 ∧ dy = 0) := by
  unfold DIRECTION_DELTAS at hd
  split_ifs at hd <;> simp_all <;> omega

theorem gridGet_gridFill_same {g : List (List Tile)} {i j : Int} {t : Tile}
    (h : gridGet g i j = some t) :
    gridGet (gridFill g i j) i j = some t.fill := by
  unfold gridGet at h ⊢
  split_ifs at h with hij
  rw [if_neg hij]
  cases hrow : g[i.toNat]? with
  | none => rw [hrow, Option.none_bind] at h; exact absurd h (by simp)
  | some row =>
    rw [hrow, Option.some_bind] at h
    obtain ⟨hlen, -⟩ := List.getElem?_eq_some_iff.mp hrow
    obtain ⟨hjlen, -⟩ := List.getElem?_eq_some_iff.mp h
    unfold gridFill
    rw [hrow, List.getElem?_set_self (by simpa using hlen), Option.some_bind,
      List.getElem?_set_self hjlen, h]

theorem gridGet_gridFill_ne {g : List (List Tile)} {a b i j : Int}
    (ha : 0 ≤ a) (hb : 0 ≤ b) (hne : ¬(a = i ∧ b = j)) :
    gridGet (gridFill g a b) i j = gridGet g i j := by
  unfold gridGet gridFill
  by_cases hij : i < 0 ∨ j < 0
  · simp [hij]
  rw [if_neg hij, if_neg hij]
  push_neg at hij
  cases hrow : g[a.toNat]? with
  | none => rfl
  | some row =>
    obtain ⟨hlen, -⟩ := List.getElem?_eq_some_iff.mp hrow
    by_cases hai : a = i
    · subst hai
      have hbj : b ≠ j := fun hbj => hne ⟨rfl, hbj⟩
      rw [List.getElem?_set_self (by simpa using hlen), Option.some_bind, hrow,
        Option.some_bind, List.getElem?_set_ne (by omega)]
    · rw [List.getElem?_set_ne (by omega)]

theorem attempt_move_plain {s : SokobanState} {d : String} {dx dy : Int}
    (hd : DIRECTION_DELTAS d = some (dx, dy))
    (h2 : ¬(s.player_position.1 + dx < 0 ∨ s.rows ≤ s.player_position.1 + dx))
    (h3 : ¬(s.player_position.2 + dy < 0 ∨ s.cols ≤ s.player_position.2 + dy))
    {tile : Tile}
    (ht : gridGet s.grid (s.player_position.1 + dx) (s.player_position.2 + dy) =
      some tile)
    (hbl : tile.is_blocking = false)
    (he : emGet s.entities (s.player_position.1 + dx, s.player_position.2 + dy) =
      none) :
    attempt_move s d = some (true,
      { s with
        player_position := (s.player_position.1 + dx, s.player_position.2 + dy),
        moves_remaining := s.moves_remaining - 1 }) := by
  unfold attempt_move
  simp [hd, ht, hbl, he, h2, h3]

theorem attempt_move_potion {s : SokobanState} {d : String} {dx dy : Int}
    (hd : DIRECTION_DELTAS d = some (dx, dy))
    (h2 : ¬(s.player_position.1 + dx < 0 ∨ s.rows ≤ s.player_position.1 + dx))
    (h3 : ¬(s.player_position.2 + dy < 0 ∨ s.cols ≤ s.player_position.2 + dy))
    {tile : Tile}
    (ht : gridGet s.grid (s.player_position.1 + dx) (s.player_position.2 + dy) =
      some tile)
    (hbl : tile.is_blocking = false)
    {p : Entity} (hp : p.isPotion = true)
    (he : emGet s.entities (s.player_position.1 + dx, s.player_position.2 + dy) =
      some p) :
    attempt_move s d = some (true,
      { s with
        entities := emPop s.entities
          (s.player_position.1 + dx, s.player_position.2 + dy),
        player_position := (s.player_position.1 + dx, s.player_position.2 + dy),
        player_strength := s.player_strength + p.effect.strength.getD 0,
        moves_remaining := s.moves_remaining + p.effect.moves.getD 0 - 1 }) := by
  unfold attempt_move
  cases p with
  | crate _ => simp [Entity.isPotion] at hp
  | strengthPotion => simp [hd, ht, hbl, he, h2, h3, applyEffect, Entity.effect]
  | movePotion => simp [hd, ht, hbl, he, h2, h3, applyEffect, Entity.effect]
  | fancyPotion => simp [hd, ht, hbl, he, h2, h3, applyEffect, Entity.effect]

theorem attempt_move_crate_relocate {s : SokobanState} {d : String} {dx dy : Int}
    (hd : DIRECTION_DELTAS d = some (dx, dy))
    (h2 : ¬(s.player_position.1 + dx < 0 ∨ s.rows ≤ s.player_position.1 + dx))
    (h3 : ¬(s.player_position.2 + dy < 0 ∨ s.cols ≤ s.player_position.2 + dy))
    {tile : Tile}
    (ht : gridGet s.grid (s.player_position.1 + dx) (s.player_position.2 + dy) =
      some tile)
    (hbl : tile.is_blocking = false)
    {S : Int}
    (he : emGet s.entities (s.player_position.1 + dx, s.player_position.2 + dy) =
      some (Entity.crate S))
    (hstr : ¬s.player_strength < S)
    (h6 : ¬(s.player_position.1 + dx + dx < 0 ∨
      s.rows ≤ s.player_position.1 + dx + dx))
    (h7 : ¬(s.player_position.2 + dy + dy < 0 ∨
      s.cols ≤ s.player_position.2 + dy + dy))
    {tile3 : Tile}
    (ht3 : gridGet s.grid (s.player_position.1 + dx + dx)
      (s.player_position.2 + dy + dy) = some tile3)
    (hbl3 : tile3.is_blocking = false)
    (he3 : emGet s.entities (s.player_position.1 + dx + dx,
      s.player_position.2 + dy + dy) = none)
    (hg3 : tile3 ≠ Tile.goal false) :
    attempt_move s d = some (true,
      { s with
        entities := emPop (emSet s.entities
          (s.player_position.1 + dx + dx, s.player_position.2 + dy + dy)
          (Entity.crate S))
          (s.player_position.1 + dx, s.player_position.2 + dy),
        player_position := (s.player_position.1 + dx, s.player_position.2 + dy),
        moves_remaining := s.moves_remaining - 1 }) := by
  unfold attempt_move
  simp [hd, ht, hbl, he, hstr, h2, h3, h6, h7, ht3, hbl3, he3, hg3]

theorem attempt_move_crate_goal {s : SokobanState} {d : String} {dx dy : Int}
    (hd : DIRECTION_DELTAS d = some (dx, dy))
    (h2 : ¬(s.player_position.1 + dx < 0 ∨ s.rows ≤ s.player_position.1 + dx))
    (h3 : ¬(s.player_position.2 + dy < 0 ∨ s.cols ≤ s.player_position.2 + dy))
    {tile : Tile}
    (ht : gridGet s.grid (s.player_position.1 + dx) (s.player_position.2 + dy) =
      some tile)
    (hbl : tile.is_blocking = false)
    {S : Int}
    (he : emGet s.entities (s.player_position.1 + dx, s.player_position.2 + dy) =
      some (Entity.crate S))
    (hstr : ¬s.player_strength < S)
    (h6 : ¬(s.player_position.1 + dx + dx < 0 ∨
      s.rows ≤ s.player_position.1 + dx + dx))
    (h7 : ¬(s.player_position.2 + dy + dy < 0 ∨
      s.cols ≤ s.player_position.2 + dy + dy))
    (ht3 : gridGet s.grid (s.player_position.1 + dx + dx)
      (s.player_position.2 + dy + dy) = some (Tile.goal false))
    (he3 : emGet s.entities (s.player_position.1 + dx + dx,
      s.player_position.2 + dy + dy) = none) :
    attempt_move s d = some (true,
      { s with
        entities := emPop s.entities
          (s.player_position.1 + dx, s.player_position.2 + dy),
        grid := gridFill s.grid (s.player_position.1 + dx + dx)
          (s.player_position.2 + dy + dy),
        player_position := (s.player_position.1 + dx, s.player_position.2 + dy),
        moves_remaining := s.moves_remaining - 1 }) := by
  unfold attempt_move
  have hbl3 : (Tile.goal false).is_blocking = false := rfl
  simp [hd, ht, hbl, he, hstr, h2, h3, h6, h7, ht3, he3, hbl3]

theorem attempt_move_crate_weak {s : SokobanState} {d : String} {dx dy : Int}
    (hd : DIRECTION_DELTAS d = some (dx, dy))
    (h2 : ¬(s.player_position.1 + dx < 0 ∨ s.rows ≤ s.player_position.1 + dx))
    (h3 : ¬(s.player_position.2 + dy < 0 ∨ s.cols ≤ s.player_position.2 + dy))
    {tile : Tile}
    (ht : gridGet s.grid (s.player_position.1 + dx) (s.player_position.2 + dy) =
      some tile)
    (hbl : tile.is_blocking = false)
    {S : Int}
    (he : emGet s.entities (s.player_position.1 + dx, s.player_position.2 + dy) =
      some (Entity.crate S))
    (hstr : s.player_strength < S) :
    attempt_move s d = some (false, s) := by
  unfold attempt_move
  simp [hd, ht, hbl, he, hstr, h2, h3]

theorem target_ne_beyond {x y dx dy : Int} (hnz : ¬(dx = 0 ∧ dy = 0)) :
    ((x + dx, y + dy) : Pos) ≠ (x + dx + dx, y + dy + dy) := by
  intro h
  rw [Prod.mk.injEq] at h
  exact hnz ⟨by omega, by omega⟩

theorem attempt_move_grid {s : SokobanState} {d : String} {r : Bool}
    {s' : SokobanState} (hm : attempt_move s d = some (r, s')) :
    s'.grid = s.grid ∨ ∃ a b : Int, 0 ≤ a ∧ 0 ≤ b ∧
      gridGet s.grid a b = some (Tile.goal false) ∧
      s'.grid = gridFill s.grid a b := by
  unfold attempt_move at hm
  dsimp only at hm
  repeat' split at hm
  all_goals first
    | exact Option.noConfusion hm
    | · obtain ⟨-, rfl⟩ := Prod.ext_iff.mp (Option.some_inj.mp hm)
        left
        rfl
    | · obtain ⟨-, rfl⟩ := Prod.ext_iff.mp (Option.some_inj.mp hm)
        rename_i h6 h7 tile3 ht3 hbl3 hocc hg
        right
        subst hg
        exact ⟨_, _, by omega, by omega, ht3, rfl⟩

theorem attempt_move_moves_indep (s : SokobanState) (d : String) (m : Int) :
    attempt_move { s with moves_remaining := m } d =
      (attempt_move s d).map fun bs =>
        (bs.1, { bs.2 with
          moves_remaining := m + (bs.2.moves_remaining - s.moves_remaining) }) := by
  unfold attempt_move
  dsimp only
  cases hD : DIRECTION_DELTAS d with
  | none =>
    simp [SokobanState.mk.injEq]
  | some dxy =>
  obtain ⟨dx, dy⟩ := dxy
  dsimp only
  by_cases h2 : s.player_position.1 + dx < 0 ∨ s.rows ≤ s.player_position.1 + dx
  · simp [h2, SokobanState.mk.injEq]
  rw [if_neg h2, if_neg h2]
  by_cases h3 : s.player_position.2 + dy < 0 ∨ s.cols ≤ s.player_position.2 + dy
  · simp [h3, SokobanState.mk.injEq]
  rw [if_neg h3, if_neg h3]
  cases hG : gridGet s.grid (s.player_position.1 + dx) (s.player_position.2 + dy) with
  | none => rfl
  | some tile =>
  dsimp only
  by_cases hbl : tile.is_blocking = true
  · simp [hbl, SokobanState.mk.injEq]
  rw [if_neg hbl, if_neg hbl]
  cases hE : emGet s.entities (s.player_position.1 + dx, s.player_position.2 + dy) with
  | none =>
    simp [SokobanState.mk.injEq]
    all_goals omega
  | some e =>
  cases e with
  | strengthPotion =>
    simp [SokobanState.mk.injEq, applyEffect, Entity.effect]
    all_goals omega
  | movePotion =>
    simp [SokobanState.mk.injEq, applyEffect, Entity.effect]
    all_goals omega
  | fancyPotion =>
    simp [SokobanState.mk.injEq, applyEffect, Entity.effect]
    all_goals omega
  | crate S =>
  dsimp only
  by_cases hstr : s.player_strength < S
  · simp [hstr, SokobanState.mk.injEq]
  rw [if_neg hstr, if_neg hstr]
  by_cases h6 : s.player_position.1 + dx + dx < 0 ∨
      s.rows ≤ s.player_position.1 + dx + dx
  · simp [h6, SokobanState.mk.injEq]
  rw [if_neg h6, if_neg h6]
  by_cases h7 : s.player_position.2 + dy + dy < 0 ∨
      s.cols ≤ s.player_position.2 + dy + dy
  · simp [h7, SokobanState.mk.injEq]
  rw [if_neg h7, if_neg h7]
  cases hG3 : gridGet s.grid (s.player_position.1 + dx + dx)
      (s.player_position.2 + dy + dy) with
  | none => rfl
  | some tile3 =>
  dsimp only
  by_cases hbl3 : tile3.is_blocking = true
  · simp [hbl3, SokobanState.mk.injEq]
  rw [if_neg hbl3, if_neg hbl3]
  by_cases hocc : (emGet s.entities (s.player_position.1 + dx + dx,
      s.player_position.2 + dy + dy)).isSome = true
  · simp [hocc, SokobanState.mk.injEq]
  rw [if_neg hocc, if_neg hocc]
  by_cases hg : tile3 = Tile.goal false
  · simp [hg, SokobanState.mk.injEq]
    all_goals omega
  · simp [hg, SokobanState.mk.injEq]
    all_goals omega

theorem attempt_move_false_no_change {s : SokobanState} {d : String}
    {s' : SokobanState} (h : attempt_move s d = some (false, s')) : s' = s := by
  unfold attempt_move at h
  dsimp only at h
  repeat' split at h
  all_goals first
    | exact (congrArg Prod.snd (Option.some_inj.mp h)).symm
    | exact absurd h (by simp)


theorem emGet_mem {m : EMap} {q : Pos} {v : Entity} (h : emGet m q = some v) :
    (q, v) ∈ m := by
  induction m with
  | nil => simp [emGet] at h
  | cons kv rest ih =>
    obtain ⟨k, v'⟩ := kv
    rw [emGet_cons] at h
    split_ifs at h with hk
    · obtain rfl := Option.some_inj.mp h
      subst hk
      exact List.mem_cons_self ..
    · exact List.mem_cons_of_mem _ (ih h)

theorem emPop_subset {m : EMap} {q : Pos} {kv : Pos × Entity}
    (h : kv ∈ emPop m q) : kv ∈ m := by
  induction m with
  | nil => simp [emPop] at h
  | cons kv' rest ih =>
    obtain ⟨k, v⟩ := kv'
    unfold emPop at h
    split_ifs at h with hk
    · exact List.mem_cons_of_mem _ (ih h)
    · rcases List.mem_cons.mp h with h1 | h2
      · exact h1 ▸ List.mem_cons_self ..
      · exact List.mem_cons_of_mem _ (ih h2)

theorem convertChar_P : convertChar PLAYER = (none, none, true) := by decide

theorem convertChar_not_P {c : Char} (h : c ≠ PLAYER) :
    (convertChar c).2.2 = false := by
  unfold convertChar
  split_ifs <;> simp_all

theorem convertRow_pp (i : Nat) (cs : List Char) :
    ∀ (j : Nat) (temp : List Tile) (ents : EMap) (pp : Option Pos),
      (convertRow i j cs temp ents pp).2.2 =
        ((rowPlayerPositions i j cs).getLast?).or pp := by
  induction cs with
  | nil =>
    intro j temp ents pp
    simp [convertRow, rowPlayerPositions]
  | cons c cs ih =>
    intro j temp ents pp
    by_cases hP : c = PLAYER
    · subst hP
      simp only [convertRow, convertChar_P, rowPlayerPositions, if_true,
        if_pos rfl]
      rw [ih, List.getLast?_append]
      simp [Option.or_assoc]
    · simp only [convertRow, rowPlayerPositions, if_neg hP,
        convertChar_not_P hP, if_false, List.nil_append]
      exact ih ..

theorem convertRows_pp (rows : List (List Char)) :
    ∀ (i : Nat) (grid : List (List Tile)) (ents : EMap) (pp : Option Pos),
      (convertRows i rows grid ents pp).2.2 =
        ((playerPositionsFrom i rows).getLast?).or pp := by
  induction rows with
  | nil =>
    intro i grid ents pp
    simp [convertRows, playerPositionsFrom]
  | cons row rest ih =>
    intro i grid ents pp
    simp only [convertRows, playerPositionsFrom]
    rw [ih, convertRow_pp, List.getLast?_append, Option.or_assoc]

theorem convertRow_entities_mem (i : Nat) (cs : List Char) :
    ∀ (j : Nat) (temp : List Tile) (ents : EMap) (pp : Option Pos)
      (kv : Pos × Entity),
      kv ∈ (convertRow i j cs temp ents pp).2.1 →
      kv ∈ ents ∨ ∃ (b : Nat) (c : Char), cs[b]? = some c ∧
        kv.1 = ((i : Int), ((j + b : Nat) : Int)) ∧
        (convertChar c).2.1 = some kv.2 := by
  induction cs with
  | nil =>
    intro j temp ents pp kv h
    exact Or.inl (by simpa [convertRow] using h)
  | cons c cs ih =>
    intro j temp ents pp kv h
    simp only [convertRow] at h
    rcases ih (j + 1) _ _ _ kv h with h1 | ⟨b, c', hc, hkey, hent⟩
    · cases hcc : (convertChar c).2.1 with
      | none =>
        rw [hcc] at h1
        exact Or.inl h1
      | some e =>
        rw [hcc] at h1
        rcases List.mem_cons.mp h1 with h2 | h3
        · right
          subst h2
          exact ⟨0, c, by simp, by simp, by simp [hcc]⟩
        · exact Or.inl (emPop_subset h3)
    · right
      refine ⟨b + 1, c', by simpa using hc, ?_, hent⟩
      rw [show j + (b + 1) = j + 1 + b by omega]
      exact hkey

theorem convertRows_entities_mem (rows : List (List Char)) :
    ∀ (i : Nat) (grid : List (List Tile)) (ents : EMap) (pp : Option Pos)
      (kv : Pos × Entity),
      kv ∈ (convertRows i rows grid ents pp).2.1 →
      kv ∈ ents ∨ ∃ (a b : Nat) (c : Char),
        (rows[a]?.bind fun row => row[b]?) = some c ∧
        kv.1 = (((i + a : Nat) : Int), ((b : Nat) : Int)) ∧
        (convertChar c).2.1 = some kv.2 := by
  induction rows with
  | nil =>
    intro i grid ents pp kv h
    exact Or.inl (by simpa [convertRows] using h)
  | cons row rest ih =>
    intro i grid ents pp kv h
    simp only [convertRows] at h
    rcases ih (i + 1) _ _ _ kv h with h1 | ⟨a, b, c, hc, hkey, hent⟩
    · rcases convertRow_entities_mem i row 0 _ _ _ kv h1 with
        h2 | ⟨b, c, hc, hkey, hent⟩
      · exact Or.inl h2
      · right
        refine ⟨0, b, c, by simpa using hc, ?_, hent⟩
        simpa using hkey
    · right
      refine ⟨a + 1, b, c, by simpa using hc, ?_, hent⟩
      rw [show i + (a + 1) = i + 1 + a by omega]
      exact hkey


/-- C2: for every model state whose recorded dimensions match its
rectangular grid, and every direction argument, `attempt_move` never raises
an exception (the embedding returns `some`), and whenever it returns
`False` it performs zero state mutation: the entity map, player position,
player strength, moves remaining and every goal's filled flag (all fields
of the state) are unchanged.  This covers unrecognized directions,
out-of-bounds targets, blocking target tiles, insufficient strength, and
blocked, occupied or out-of-bounds beyond-cells. -/
theorem claim_C2_false_is_noop (s : SokobanState) (d : String)
    (hwf : wellFormed s = true) :
    (attempt_move s d).isSome = true ∧
      ∀ s' : SokobanState, attempt_move s d = some (false, s') → s' = s :=
  ⟨attempt_move_isSome hwf d, fun _ h => attempt_move_false_no_change h⟩

theorem claim_C2_witness :
    wellFormed demoA = true ∧ (attempt_move demoA "x").isSome = true :=
  ⟨by decide, (claim_C2_false_is_noop demoA "x" (by decide)).1⟩

/-- C3: when the target cell holds a crate of strength `S`, a player with
strength strictly below `S` gets `False` with no state change, while a
player with strength at least `S` pushing toward an in-bounds, non-blocking,
unoccupied beyond-cell that is not an unfilled goal gets `True`; the crate's
old entity-map key is removed, the same crate is inserted at the
beyond-target key, the player moves to the target cell, and moves remaining
drops by 1. -/
theorem claim_C3_crate_push (s : SokobanState) (d : String) (dx dy : Int)
    (hd : DIRECTION_DELTAS d = some (dx, dy))
    (h2 : ¬(s.player_position.1 + dx < 0 ∨ s.rows ≤ s.player_position.1 + dx))
    (h3 : ¬(s.player_position.2 + dy < 0 ∨ s.cols ≤ s.player_position.2 + dy))
    (tile : Tile)
    (ht : gridGet s.grid (s.player_position.1 + dx) (s.player_position.2 + dy) =
      some tile)
    (hbl : tile.is_blocking = false)
    (S : Int)
    (he : emGet s.entities (s.player_position.1 + dx, s.player_position.2 + dy) =
      some (Entity.crate S)) :
    (s.player_strength < S → attempt_move s d = some (false, s)) ∧
    (¬s.player_strength < S →
      ∀ tile3 : Tile,
      ¬(s.player_position.1 + dx + dx < 0 ∨
        s.rows ≤ s.player_position.1 + dx + dx) →
      ¬(s.player_position.2 + dy + dy < 0 ∨
        s.cols ≤ s.player_position.2 + dy + dy) →
      gridGet s.grid (s.player_position.1 + dx + dx)
        (s.player_position.2 + dy + dy) = some tile3 →
      tile3.is_blocking = false →
      emGet s.entities (s.player_position.1 + dx + dx,
        s.player_position.2 + dy + dy) = none →
      tile3 ≠ Tile.goal false →
      attempt_move s d = some (true,
        { s with
          entities := emPop (emSet s.entities
            (s.player_position.1 + dx + dx, s.player_position.2 + dy + dy)
            (Entity.crate S))
            (s.player_position.1 + dx, s.player_position.2 + dy),
          player_position := (s.player_position.1 + dx, s.player_position.2 + dy),
          moves_remaining := s.moves_remaining - 1 }) ∧
      emGet (emPop (emSet s.entities
          (s.player_position.1 + dx + dx, s.player_position.2 + dy + dy)
          (Entity.crate S))
          (s.player_position.1 + dx, s.player_position.2 + dy))
        (s.player_position.1 + dx, s.player_position.2 + dy) = none ∧
      emGet (emPop (emSet s.entities
          (s.player_position.1 + dx + dx, s.player_position.2 + dy + dy)
          (Entity.crate S))
          (s.player_position.1 + dx, s.player_position.2 + dy))
        (s.player_position.1 + dx + dx, s.player_position.2 + dy + dy) =
        some (Entity.crate S)) := by
  constructor
  · intro hstr
    exact attempt_move_crate_weak hd h2 h3 ht hbl he hstr
  · intro hstr tile3 h6 h7 ht3 hbl3 he3 hg3
    refine ⟨attempt_move_crate_relocate hd h2 h3 ht hbl he hstr h6 h7 ht3
      hbl3 he3 hg3, emGet_emPop_same .., ?_⟩
    rw [emGet_emPop_ne _ _ _
      (target_ne_beyond (DIRECTION_DELTAS_ne_zero hd))]
    exact emGet_emSet_same ..

theorem claim_C3_witness :
    attempt_move demoWeak "d" = some (false, demoWeak) ∧
    attempt_move demoPush "d" = some (true, demoPushAfter) :=
  ⟨(claim_C3_crate_push demoWeak "d" 0 1 (by decide) (by decide) (by decide)
      Tile.floor (by decide) (by decide) 1 (by decide)).1 (by decide),
    ((claim_C3_crate_push demoPush "d" 0 1 (by decide) (by decide) (by decide)
      Tile.floor (by decide) (by decide) 1 (by decide)).2 (by decide)
      Tile.floor (by decide) (by decide) (by decide) (by decide) (by decide)
      (by decide)).1⟩

/-- C4: pushing a crate onto an in-bounds, non-blocking, unoccupied,
unfilled goal returns `True`, removes the crate from the entity map with no
remaining key for it (neither at its old cell nor at the goal cell), sets
that goal's filled flag, changes its display tag to the distinct filled
tag, moves the player into the vacated target cell, and decrements moves
remaining by 1. -/
theorem claim_C4_goal_fill (s : SokobanState) (d : String) (dx dy : Int)
    (hd : DIRECTION_DELTAS d = some (dx, dy))
    (h2 : ¬(s.player_position.1 + dx < 0 ∨ s.rows ≤ s.player_position.1 + dx))
    (h3 : ¬(s.player_position.2 + dy < 0 ∨ s.cols ≤ s.player_position.2 + dy))
    (tile : Tile)
    (ht : gridGet s.grid (s.player_position.1 + dx) (s.player_position.2 + dy) =
      some tile)
    (hbl : tile.is_blocking = false)
    (S : Int)
    (he : emGet s.entities (s.player_position.1 + dx, s.player_position.2 + dy) =
      some (Entity.crate S))
    (hstr : ¬s.player_strength < S)
    (h6 : ¬(s.player_position.1 + dx + dx < 0 ∨
      s.rows ≤ s.player_position.1 + dx + dx))
    (h7 : ¬(s.player_position.2 + dy + dy < 0 ∨
      s.cols ≤ s.player_position.2 + dy + dy))
    (ht3 : gridGet s.grid (s.player_position.1 + dx + dx)
      (s.player_position.2 + dy + dy) = some (Tile.goal false))
    (he3 : emGet s.entities (s.player_position.1 + dx + dx,
      s.player_position.2 + dy + dy) = none) :
    attempt_move s d = some (true,
      { s with
        entities := emPop s.entities
          (s.player_position.1 + dx, s.player_position.2 + dy),
        grid := gridFill s.grid (s.player_position.1 + dx + dx)
          (s.player_position.2 + dy + dy),
        player_position := (s.player_position.1 + dx, s.player_position.2 + dy),
        moves_remaining := s.moves_remaining - 1 }) ∧
    emGet (emPop s.entities (s.player_position.1 + dx, s.player_position.2 + dy))
      (s.player_position.1 + dx, s.player_position.2 + dy) = none ∧
    emGet (emPop s.entities (s.player_position.1 + dx, s.player_position.2 + dy))
      (s.player_position.1 + dx + dx, s.player_position.2 + dy + dy) = none ∧
    gridGet (gridFill s.grid (s.player_position.1 + dx + dx)
        (s.player_position.2 + dy + dy))
      (s.player_position.1 + dx + dx) (s.player_position.2 + dy + dy) =
      some (Tile.goal true) ∧
    (Tile.goal true).get_type = FILLED_GOAL ∧
    (Tile.goal false).get_type = GOAL ∧ FILLED_GOAL ≠ GOAL := by
  refine ⟨attempt_move_crate_goal hd h2 h3 ht hbl he hstr h6 h7 ht3 he3,
    emGet_emPop_same .., ?_, gridGet_gridFill_same ht3, rfl, rfl, by decide⟩
  rw [emGet_emPop]
  split_ifs
  · rfl
  · exact he3

theorem claim_C4_witness :
    attempt_move demoGoalPush "d" = some (true, demoGoalAfter) ∧
    gridGet demoGoalAfter.grid 0 2 = some (Tile.goal true) :=
  ⟨(claim_C4_goal_fill demoGoalPush "d" 0 1 (by decide) (by decide) (by decide)
      Tile.floor (by decide) (by decide) 1 (by decide) (by decide) (by decide)
      (by decide) (by decide) (by decide)).1,
    (claim_C4_goal_fill demoGoalPush "d" 0 1 (by decide) (by decide) (by decide)
      Tile.floor (by decide) (by decide) 1 (by decide) (by decide) (by decide)
      (by decide) (by decide) (by decide)).2.2.2.1⟩

/-- C5: pushing a crate toward an in-bounds, non-blocking, unoccupied
beyond-cell that is an already-filled goal is a plain relocation:
`attempt_move` returns `True`, the crate is relocated to the filled-goal
cell and remains in the entity map there, the old key is removed, and the
grid (hence every goal's filled flag and display tag) is untouched — the
result state carries `s.grid` unchanged. -/
theorem claim_C5_filled_goal_relocation (s : SokobanState) (d : String)
    (dx dy : Int)
    (hd : DIRECTION_DELTAS d = some (dx, dy))
    (h2 : ¬(s.player_position.1 + dx < 0 ∨ s.rows ≤ s.player_position.1 + dx))
    (h3 : ¬(s.player_position.2 + dy < 0 ∨ s.cols ≤ s.player_position.2 + dy))
    (tile : Tile)
    (ht : gridGet s.grid (s.player_position.1 + dx) (s.player_position.2 + dy) =
      some tile)
    (hbl : tile.is_blocking = false)
    (S : Int)
    (he : emGet s.entities (s.player_position.1 + dx, s.player_position.2 + dy) =
      some (Entity.crate S))
    (hstr : ¬s.player_strength < S)
    (h6 : ¬(s.player_position.1 + dx + dx < 0 ∨
      s.rows ≤ s.player_position.1 + dx + dx))
    (h7 : ¬(s.player_position.2 + dy + dy < 0 ∨
      s.cols ≤ s.player_position.2 + dy + dy))
    (ht3 : gridGet s.grid (s.player_position.1 + dx + dx)
      (s.player_position.2 + dy + dy) = some (Tile.goal true))
    (he3 : emGet s.entities (s.player_position.1 + dx + dx,
      s.player_position.2 + dy + dy) = none) :
    attempt_move s d = some (true,
      { s with
        entities := emPop (emSet s.entities
          (s.player_position.1 + dx + dx, s.player_position.2 + dy + dy)
          (Entity.crate S))
          (s.player_position.1 + dx, s.player_position.2 + dy),
        player_position := (s.player_position.1 + dx, s.player_position.2 + dy),
        moves_remaining := s.moves_remaining - 1 }) ∧
    emGet (emPop (emSet s.entities
        (s.player_position.1 + dx + dx, s.player_position.2 + dy + dy)
        (Entity.crate S))
        (s.player_position.1 + dx, s.player_position.2 + dy))
      (s.player_position.1 + dx + dx, s.player_position.2 + dy + dy) =
      some (Entity.crate S) ∧
    emGet (emPop (emSet s.entities
        (s.player_position.1 + dx + dx, s.player_position.2 + dy + dy)
        (Entity.crate S))
        (s.player_position.1 + dx, s.player_position.2 + dy))
      (s.player_position.1 + dx, s.player_position.2 + dy) = none ∧
    ({ s with
        entities := emPop (emSet s.entities
          (s.player_position.1 + dx + dx, s.player_position.2 + dy + dy)
          (Entity.crate S))
          (s.player_position.1 + dx, s.player_position.2 + dy),
        player_position := (s.player_position.1 + dx, s.player_position.2 + dy),
        moves_remaining := s.moves_remaining - 1 } : SokobanState).grid =
      s.grid := by
  refine ⟨attempt_move_crate_relocate hd h2 h3 ht hbl he hstr h6 h7 ht3
    (by decide) he3 (by decide), ?_, emGet_emPop_same .., rfl⟩
  rw [emGet_emPop_ne _ _ _
    (target_ne_beyond (DIRECTION_DELTAS_ne_zero hd))]
  exact emGet_emSet_same ..

theorem claim_C5_witness :
    attempt_move demoFilledPush "d" = some (true, demoFilledAfter) ∧
    emGet demoFilledAfter.entities (0, 2) = some (Entity.crate 1) :=
  ⟨(claim_C5_filled_goal_relocation demoFilledPush "d" 0 1 (by decide)
      (by decide) (by decide) Tile.floor (by decide) (by decide) 1 (by decide)
      (by decide) (by decide) (by decide) (by decide) (by decide)).1,
    (claim_C5_filled_goal_relocation demoFilledPush "d" 0 1 (by decide)
      (by decide) (by decide) Tile.floor (by decide) (by decide) 1 (by decide)
      (by decide) (by decide) (by decide) (by decide) (by decide)).2.1⟩

/-- C6: moving onto a potion returns `True`, removes the potion from the
entity map, and applies exactly its declared effect together with the
turn's move cost: the new strength is the old plus the effect's `strength`
entry (absent keys counting 0) and the new moves remaining is the old plus
the effect's `moves` entry minus exactly 1; the declared effects are
`StrengthPotion → {strength: 2}`, `MovePotion → {moves: 5}`,
`FancyPotion → {strength: 2, moves: 2}`. -/
theorem claim_C6_potion (s : SokobanState) (d : String) (dx dy : Int)
    (hd : DIRECTION_DELTAS d = some (dx, dy))
    (h2 : ¬(s.player_position.1 + dx < 0 ∨ s.rows ≤ s.player_position.1 + dx))
    (h3 : ¬(s.player_position.2 + dy < 0 ∨ s.cols ≤ s.player_position.2 + dy))
    (tile : Tile)
    (ht : gridGet s.grid (s.player_position.1 + dx) (s.player_position.2 + dy) =
      some tile)
    (hbl : tile.is_blocking = false)
    (p : Entity) (hp : p.isPotion = true)
    (he : emGet s.entities (s.player_position.1 + dx, s.player_position.2 + dy) =
      some p) :
    attempt_move s d = some (true,
      { s with
        entities := emPop s.entities
          (s.player_position.1 + dx, s.player_position.2 + dy),
        player_position := (s.player_position.1 + dx, s.player_position.2 + dy),
        player_strength := s.player_strength + p.effect.strength.getD 0,
        moves_remaining := s.moves_remaining + p.effect.moves.getD 0 - 1 }) ∧
    emGet (emPop s.entities (s.player_position.1 + dx, s.player_position.2 + dy))
      (s.player_position.1 + dx, s.player_position.2 + dy) = none ∧
    Entity.strengthPotion.effect = ⟨some 2, none⟩ ∧
    Entity.movePotion.effect = ⟨none, some 5⟩ ∧
    Entity.fancyPotion.effect = ⟨some 2, some 2⟩ :=
  ⟨attempt_move_potion hd h2 h3 ht hbl hp he, emGet_emPop_same .., rfl, rfl,
    rfl⟩

theorem claim_C6_witness :
    attempt_move demoPotion "d" = some (true, demoPotionAfter) ∧
    emGet demoPotionAfter.entities (0, 1) = none :=
  ⟨(claim_C6_potion demoPotion "d" 0 1 (by decide) (by decide) (by decide)
      Tile.floor (by decide) (by decide) Entity.movePotion (by decide)
      (by decide)).1,
    (claim_C6_potion demoPotion "d" 0 1 (by decide) (by decide) (by decide)
      Tile.floor (by decide) (by decide) Entity.movePotion (by decide)
      (by decide)).2.1⟩

/-- C7: `has_won` is `True` exactly when no unfilled goal tile remains
anywhere in the tile grid. -/
theorem claim_C7_has_won_iff (s : SokobanState) :
    has_won s = true ↔
      ∀ row ∈ s.grid, ∀ tile ∈ row, tile ≠ Tile.goal false := by
  unfold has_won
  simp only [List.all_eq_true]
  constructor
  · intro h row hr tile htl hgoal
    subst hgoal
    simpa using h row hr _ htl
  · intro h row hr tile htl
    cases tile with
    | floor => rfl
    | wall => rfl
    | goal b =>
      cases b with
      | false => exact absurd rfl (h _ hr _ htl)
      | true => rfl

/-- C8: a goal's filled flag is false at creation; `fill` is idempotent in
effect; the filled display tag differs from the unfilled one; and the flag
is monotone across the model's only mutating operation: a goal tile filled
before an `attempt_move` is still filled afterwards, whatever the move did. -/
theorem claim_C8_goal_invariants :
    goalInit = Tile.goal false ∧
    (∀ t : Tile, t.fill.fill = t.fill) ∧
    (Tile.goal true).get_type ≠ (Tile.goal false).get_type ∧
    (∀ (s : SokobanState) (d : String) (r : Bool) (s' : SokobanState)
      (i j : Int),
      attempt_move s d = some (r, s') →
      gridGet s.grid i j = some (Tile.goal true) →
      gridGet s'.grid i j = some (Tile.goal true)) := by
  refine ⟨rfl, fun t => by cases t <;> rfl, by decide, ?_⟩
  intro s d r s' i j hm hg
  rcases attempt_move_grid hm with hsame | ⟨a, b, ha, hb, hab, hgrid⟩
  · rw [hsame]
    exact hg
  · rw [hgrid]
    by_cases hne : a = i ∧ b = j
    · obtain ⟨rfl, rfl⟩ := hne
      rw [hab] at hg
      exact absurd (Option.some_inj.mp hg) (by decide)
    · rw [gridGet_gridFill_ne ha hb hne]
      exact hg

theorem claim_C8_witness :
    gridGet demoG.grid 0 0 = some (Tile.goal true) :=
  claim_C8_goal_invariants.2.2.2 demoG "x" false demoG 0 0 (by decide)
    (by decide)

/-- C10: `attempt_move` imposes no precondition on moves remaining — the
outcome (and the whole result, up to the shifted counter) is the same for
every value of the counter, so a move that is otherwise valid succeeds at
zero or negative moves remaining and the counter may go negative, as the
concrete run from `demoNeg` shows; the exhaustion check lives in the
controller and tests exact equality with 0. -/
theorem claim_C10_no_moves_precondition :
    (∀ (s : SokobanState) (d : String) (m : Int),
      attempt_move { s with moves_remaining := m } d =
        (attempt_move s d).map fun bs =>
          (bs.1, { bs.2 with
            moves_remaining :=
              m + (bs.2.moves_remaining - s.moves_remaining) })) ∧
    (∀ s : SokobanState, lostAfterMove s = true ↔ s.moves_remaining = 0) ∧
    demoNeg.moves_remaining = 0 ∧
    attempt_move demoNeg "d" = some (true, demoNegAfter) ∧
    demoNegAfter.moves_remaining = -1 :=
  ⟨attempt_move_moves_indep, fun s => by simp [lostAfterMove], by decide,
    by decide, by decide⟩

/-- C1 (code evaluated at the failing input): `convert_maze` does NOT place
a Floor tile at crate, potion, player or unrecognized cells — those branches
append nothing — so an output row can be shorter than its input row, and
the model built from such a maze (`mazeRaggedState`, dimensions taken from
row 0 as `__init__` does) runs its grid indexing out of range on a move
right, the embedded `none` standing for Python's `IndexError`. -/
theorem claim_C1_floor_not_placed :
    (convert_maze [[PLAYER, FLOOR]]).1 = [[Tile.floor]] ∧
    (convert_maze [[PLAYER, FLOOR]]).1.map List.length ≠
      [[PLAYER, FLOOR]].map List.length ∧
    attempt_move mazeRaggedState "d" = none := by decide

/-- C9: `convert_maze` returns as player position the last player character
in row-major scan order (`None` when there is none, later occurrences
silently overwriting earlier ones), and records no entity at any player
cell. -/
theorem claim_C9_convert_player (game : List (List Char)) :
    (convert_maze game).2.2 = (playerPositions game).getLast? ∧
    ∀ i j : Nat, cellAt game i j = some PLAYER →
      emGet (convert_maze game).2.1 ((i : Int), (j : Int)) = none := by
  constructor
  · unfold convert_maze playerPositions
    rw [convertRows_pp]
    exact Option.or_none ..
  · intro i j hcell
    cases hE : emGet (convert_maze game).2.1 ((i : Int), (j : Int)) with
    | none => rfl
    | some v =>
      exfalso
      have hmem := emGet_mem hE
      rcases convertRows_entities_mem game 0 [] [] none _ hmem with
        h0 | ⟨a, b, c, hc, hkey, hent⟩
      · simp at h0
      · obtain ⟨hfst, hsnd⟩ := Prod.ext_iff.mp hkey
        have ha : a = i := by simp at hfst; omega
        have hb : b = j := by simp at hsnd; omega
        subst ha
        subst hb
        unfold cellAt at hcell
        have hcP : c = PLAYER := Option.some_inj.mp (hc.symm.trans hcell)
        subst hcP
        rw [convertChar_P] at hent
        exact Option.noConfusion hent

theorem claim_C9_witness :
    (convert_maze [[PLAYER, PLAYER]]).2.2 = some ((0 : Int), (1 : Int)) ∧
    emGet (convert_maze [[PLAYER, PLAYER]]).2.1 (0, 0) = none ∧
    (convert_maze [[FLOOR]]).2.2 = none :=
  ⟨(claim_C9_convert_player [[PLAYER, PLAYER]]).1.trans (by decide),
    (claim_C9_convert_player [[PLAYER, PLAYER]]).2 0 0 (by decide),
    (claim_C9_convert_player [[FLOOR]]).1.trans (by decide)⟩

end Practice
